import Mathlib

set_option maxRecDepth 8000

/-!
# Verification of the electricity cost allocation engine

Shallow embedding of the repository's electricity billing core:

* `src/views/electricity/calculator.py` — class `ElectricityCalculator`
  (`calculate_unit_price`, `calculate_public_electricity`,
  `calculate_shared_electricity`, `calculate_room_charge`,
  `calculate_all_rooms`, `validate_readings`);
* `src/config/constants.py` — class `ElectricityConfig`
  (`calculate_progressive_fee` and the two tariff tier tables).

Modelling conventions:

* Python floats are modelled as exact rationals (`ℚ`); Python's `round`
  (round-half-to-even, banker's rounding) is modelled by `pyRound`
  (to an integer) and `round2` (to 2 decimal places).
* Python dicts used as reading maps are modelled as association lists
  `List (String × ℚ)` in insertion order (Python dicts preserve insertion
  order; `sum(d.values())` and `for k, v in d.items()` iterate in that
  order).
* `raise ValueError(msg)` is modelled by `Except.error msg`.
* `logger.warning(...)` is modelled as an explicit output channel: the
  functions that log return the emitted `LogEvent`s alongside their value;
  a `LogEvent` carries the same data the Python log line interpolates.
* Python's stable `sorted(..., key=lambda x: x['room'])` is modelled by
  the stable insertion sort `sortByRoom` on the room key.
* `float('inf')` as the final tariff bracket bound is modelled by `none`
  in `Option ℚ`: for an unbounded bracket `min(remaining, inf - prev)`
  equals `remaining`, and after it `remaining` is `0`, ending the loop.
-/

/-- Python's built-in `round(q)` to an integer: round half to even.  The
fractional-part comparison `q - ⌊q⌋ < 1/2` is expressed as
`2q < 2⌊q⌋ + 1` (and symmetrically) to keep the definition free of the
`q - ⌊q⌋` pattern. -/
def pyRound (q : ℚ) : ℤ :=
  if 2 * q < 2 * (⌊q⌋ : ℚ) + 1 then ⌊q⌋
  else if 2 * (⌊q⌋ : ℚ) + 1 < 2 * q then ⌊q⌋ + 1
  else if ⌊q⌋ % 2 = 0 then ⌊q⌋ else ⌊q⌋ + 1

/-- Python's `round(q, 2)`: round half to even at 2 decimal places. -/
def round2 (q : ℚ) : ℚ :=
  (pyRound (q * 100) : ℚ) / 100

/-- The configuration of `ElectricityCalculator.__init__`: the rooms that
share common-area electricity and the rooms with exclusive meters.
Only `sharing_rooms` is ever consulted by the calculation methods. -/
structure ElectricityCalculator where
  sharing_rooms : List String
  exclusive_rooms : List String

/-- A `logger.warning` event emitted during the computation, carrying the
values interpolated into the Python log message. -/
inductive LogEvent where
  /-- The warning logged by `calculate_public_electricity` when the
  computed public consumption is negative (the interpolated values are
  `public_kwh`, `taipower_kwh`, `total_room_kwh`). -/
  | negativePublicKwh (public_kwh taipower_kwh total_room_kwh : ℚ)
deriving DecidableEq

/-- `ElectricityCalculator.calculate_unit_price`: average unit price
`round(total_amount / total_kwh, 2)`; raises `ValueError` when
`total_kwh <= 0`. -/
def calculate_unit_price (total_amount total_kwh : ℚ) : Except String ℚ :=
  if total_kwh ≤ 0 then Except.error "總度數必須大於 0"
  else Except.ok (round2 (total_amount / total_kwh))

/-- `ElectricityCalculator.calculate_public_electricity`: public (common)
consumption `taipower_kwh - sum(room_readings.values())`; clamped to `0`
with a logged warning when negative, otherwise rounded to 2 decimals.
Returns the value together with the emitted log events. -/
def calculate_public_electricity (taipower_kwh : ℚ)
    (room_readings : List (String × ℚ)) : ℚ × List LogEvent :=
  let total_room_kwh := (room_readings.map Prod.snd).sum
  let public_kwh := taipower_kwh - total_room_kwh
  if public_kwh < 0 then
    (0, [LogEvent.negativePublicKwh public_kwh taipower_kwh total_room_kwh])
  else
    (round2 public_kwh, [])

/-- `ElectricityCalculator.calculate_shared_electricity`: per sharing room
share `round(public_kwh / sharing_room_count, 2)`, or `0` when the count
is not positive.  The count is a `ℕ` because it arises as a list length. -/
def calculate_shared_electricity (public_kwh : ℚ) (sharing_room_count : ℕ) : ℚ :=
  if sharing_room_count = 0 then 0
  else round2 (public_kwh / sharing_room_count)

/-- The dict returned by `ElectricityCalculator.calculate_room_charge`. -/
structure RoomCharge where
  room : String
  room_kwh : ℚ
  shared_kwh : ℚ
  total_kwh : ℚ
  charge : ℤ
  is_sharing : Bool
deriving DecidableEq

/-- `ElectricityCalculator.calculate_room_charge`: a room receives the
shared portion only when it is in `sharing_rooms`; the charge is the
total consumption times the unit price rounded to a whole currency unit. -/
def calculate_room_charge (c : ElectricityCalculator) (room : String)
    (room_kwh unit_price shared_kwh : ℚ) : RoomCharge :=
  let is_sharing := c.sharing_rooms.contains room
  let actual_shared_kwh := if is_sharing then shared_kwh else 0
  let total_kwh := room_kwh + actual_shared_kwh
  { room := room
    room_kwh := round2 room_kwh
    shared_kwh := round2 actual_shared_kwh
    total_kwh := round2 total_kwh
    charge := pyRound (total_kwh * unit_price)
    is_sharing := is_sharing }

/-- Stable insertion of a `RoomCharge` into a list sorted by room key:
the new element goes before the first strictly greater key and after
equal keys already present. -/
def insertByRoom (x : RoomCharge) : List RoomCharge → List RoomCharge
  | [] => [x]
  | y :: ys => if x.room ≤ y.room then x :: y :: ys else y :: insertByRoom x ys

/-- Python's stable `sorted(room_charges, key=lambda x: x['room'])`. -/
def sortByRoom (l : List RoomCharge) : List RoomCharge :=
  l.foldr insertByRoom []

/-- The dict returned by `ElectricityCalculator.calculate_all_rooms`. -/
structure AllocationResult where
  unit_price : ℚ
  public_kwh : ℚ
  shared_kwh_per_room : ℚ
  sharing_room_count : ℕ
  room_charges : List RoomCharge
  total_charge : ℤ
  taipower_amount : ℚ
  difference : ℚ
deriving DecidableEq

/-- `ElectricityCalculator.calculate_all_rooms`, the allocation engine
(`allocate` in the specification): unit price, public consumption,
per-room share, per-room charges (sorted by room), total and difference.
The only raising step is `calculate_unit_price`; the `except` clause logs
and re-raises, modelled by propagating the error. -/
def calculate_all_rooms (c : ElectricityCalculator)
    (taipower_amount taipower_kwh : ℚ)
    (room_readings : List (String × ℚ)) :
    Except String (AllocationResult × List LogEvent) :=
  match calculate_unit_price taipower_amount taipower_kwh with
  | Except.error e => Except.error e
  | Except.ok unit_price =>
    let pub := calculate_public_electricity taipower_kwh room_readings
    let public_kwh := pub.1
    let sharing_count :=
      ((room_readings.map Prod.fst).filter (fun r => c.sharing_rooms.contains r)).length
    let shared_kwh_per_room := calculate_shared_electricity public_kwh sharing_count
    let room_charges := room_readings.map
      (fun p => calculate_room_charge c p.1 p.2 unit_price shared_kwh_per_room)
    let total_charge := (room_charges.map RoomCharge.charge).sum
    let difference := (total_charge : ℚ) - taipower_amount
    Except.ok
      ({ unit_price := unit_price
         public_kwh := public_kwh
         shared_kwh_per_room := shared_kwh_per_room
         sharing_room_count := sharing_count
         room_charges := sortByRoom room_charges
         total_charge := total_charge
         taipower_amount := taipower_amount
         difference := round2 difference }, pub.2)

/-- One entry of the error list produced by
`ElectricityCalculator.validate_readings`; the Python message strings are
abstracted to constructors carrying the interpolated values. -/
inductive ValidationIssue where
  /-- Message `f"{room}: 讀數不能為負數"` — negative current reading. -/
  | negativeReading (room : String) (reading : ℚ)
  /-- Message `f"{room}: 本期讀數 ({current}) 不能小於上期 ({previous})"`
  — current reading below the previous period's reading. -/
  | regression (room : String) (current previous : ℚ)
deriving DecidableEq

/-- `ElectricityCalculator.validate_readings`: negative-reading check over
the current map, then (when a non-empty previous map is supplied — Python
`if previous_readings:` is false for both `None` and `{}`) the regression
check for rooms present in both maps.  Returns `(ok, errors)` with
`ok = (len(errors) == 0)`. -/
def validate_readings (current_readings : List (String × ℚ))
    (previous_readings : Option (List (String × ℚ))) :
    Bool × List ValidationIssue :=
  let negative_errors := current_readings.filterMap
    (fun p => if p.2 < 0 then some (ValidationIssue.negativeReading p.1 p.2) else none)
  let regression_errors :=
    match previous_readings with
    | none => []
    | some prev =>
      if prev.isEmpty then []
      else current_readings.filterMap
        (fun p => match prev.lookup p.1 with
          | none => none
          | some previous =>
            if p.2 < previous then
              some (ValidationIssue.regression p.1 p.2 previous)
            else none)
  let errors := negative_errors ++ regression_errors
  (errors.isEmpty, errors)

/-- `ElectricityConfig.TIER_SUMMER` (`src/config/constants.py`):
`(upper bound, marginal rate)` pairs, `none` standing for `float('inf')`. -/
def TIER_SUMMER : List (Option ℚ × ℚ) :=
  [(some 120, 163/100), (some 330, 238/100), (some 500, 352/100),
   (some 700, 480/100), (some 1000, 566/100), (none, 641/100)]

/-- `ElectricityConfig.TIER_NON_SUMMER` (`src/config/constants.py`). -/
def TIER_NON_SUMMER : List (Option ℚ × ℚ) :=
  [(some 120, 163/100), (some 330, 210/100), (some 500, 289/100),
   (some 700, 394/100), (some 1000, 460/100), (none, 503/100)]

/-- The bracket loop of `ElectricityConfig.calculate_progressive_fee`:
walk the tiers accumulating `min(remaining, limit - prev_limit) * rate`,
stopping when `remaining <= 0`.  For the `float('inf')` bound (`none`)
the billable amount `min(remaining, inf - prev_limit)` is all of
`remaining`, after which `remaining` is `0` and the loop exits at the
next iteration; the `prev_limit` update to `inf` is therefore never
observed and the finite value is kept. -/
def progressive_loop : List (Option ℚ × ℚ) → ℚ → ℚ → ℚ → ℚ
  | [], _, _, total_fee => total_fee
  | (some l, rate) :: rest, remaining, prev_limit, total_fee =>
    if remaining ≤ 0 then total_fee
    else progressive_loop rest (remaining - min remaining (l - prev_limit)) l
      (total_fee + min remaining (l - prev_limit) * rate)
  | (none, rate) :: rest, remaining, prev_limit, total_fee =>
    if remaining ≤ 0 then total_fee
    else progressive_loop rest (remaining - remaining) prev_limit
      (total_fee + remaining * rate)

/-- `ElectricityConfig.calculate_progressive_fee` (`compute_tier_fee` in
the specification): progressive tariff fee, rounded to 2 decimals. -/
def calculate_progressive_fee (kwh : ℚ) (is_summer : Bool) : ℚ :=
  let tiers := if is_summer then TIER_SUMMER else TIER_NON_SUMMER
  round2 (progressive_loop tiers kwh 0 0)

/-- Validity of a tier table relative to a previous upper bound: all
marginal rates are non-negative and the finite upper bounds are
non-decreasing.  Both configured tables satisfy it from bound `0`. -/
def tiersValid : ℚ → List (Option ℚ × ℚ) → Prop
  | _, [] => True
  | prev, (some l, rate) :: rest => 0 ≤ rate ∧ prev ≤ l ∧ tiersValid l rest
  | prev, (none, rate) :: rest => 0 ≤ rate ∧ tiersValid prev rest

/-- The calculator configured with sharing rooms `B`, `C` and exclusive
room `A`, as in the specification's end-to-end scenario. -/
def calcABC : ElectricityCalculator :=
  { sharing_rooms := ["B", "C"], exclusive_rooms := ["A"] }

/-- A calculator with the single sharing room `B` and no exclusive rooms. -/
def calcBonly : ElectricityCalculator :=
  { sharing_rooms := ["B"], exclusive_rooms := [] }

/-- The allocation produced by `calculate_all_rooms calcBonly 400 200
[("B", 100)]`: common consumption `100` (not clamped), one sharing room,
share `100`, total consumption `200`, charge `400`. -/
def C2R : AllocationResult :=
  { unit_price := 2
    public_kwh := 100
    shared_kwh_per_room := 100
    sharing_room_count := 1
    room_charges :=
      [{ room := "B"
         room_kwh := 100
         shared_kwh := 100
         total_kwh := 200
         charge := 400
         is_sharing := true }]
    total_charge := 400
    taipower_amount := 400
    difference := 0 }

/-! ## Basic facts about the rounding functions -/

theorem pyRound_intCast (n : ℤ) : pyRound (n : ℚ) = n := by
  have hfl : ⌊(n : ℚ)⌋ = n := Int.floor_intCast n
  have hlt : 2 * (n : ℚ) < 2 * ((n : ℤ) : ℚ) + 1 := by linarith
  rw [pyRound, hfl, if_pos hlt]

theorem round2_of_int_div (n : ℤ) : round2 ((n : ℚ) / 100) = (n : ℚ) / 100 := by
  have h : ((n : ℚ) / 100) * 100 = (n : ℚ) := by field_simp
  rw [round2, h, pyRound_intCast]

theorem round2_exists_int (q : ℚ) : ∃ n : ℤ, round2 q = (n : ℚ) / 100 :=
  ⟨pyRound (q * 100), rfl⟩

theorem round2_round2 (q : ℚ) : round2 (round2 q) = round2 q := by
  obtain ⟨n, hn⟩ := round2_exists_int q
  rw [hn, round2_of_int_div]

theorem round2_zero : round2 0 = 0 := by
  have h := round2_of_int_div 0
  simpa using h

theorem pyRound_mono {a b : ℚ} (h : a ≤ b) : pyRound a ≤ pyRound b := by
  have hfl : ⌊a⌋ ≤ ⌊b⌋ := Int.floor_le_floor h
  rcases lt_or_eq_of_le hfl with hlt | heq
  · have ha : pyRound a ≤ ⌊a⌋ + 1 := by
      unfold pyRound; split_ifs <;> omega
    have hb : ⌊b⌋ ≤ pyRound b := by
      unfold pyRound; split_ifs <;> omega
    omega
  · have heq' : ((⌊a⌋ : ℤ) : ℚ) = ((⌊b⌋ : ℤ) : ℚ) := by
      exact_mod_cast congrArg (fun z : ℤ => (z : ℚ)) heq
    unfold pyRound
    split_ifs <;> first | omega | linarith

theorem round2_mono {a b : ℚ} (h : a ≤ b) : round2 a ≤ round2 b := by
  have h1 : a * 100 ≤ b * 100 := by linarith
  have h2 : (pyRound (a * 100) : ℚ) ≤ (pyRound (b * 100) : ℚ) := by
    exact_mod_cast pyRound_mono h1
  rw [round2, round2]
  linarith

/-! ## The stable sort on room charges -/

theorem insertByRoom_perm (x : RoomCharge) (l : List RoomCharge) :
    List.Perm (insertByRoom x l) (x :: l) := by
  induction l with
  | nil => simp [insertByRoom]
  | cons y ys ih =>
    simp only [insertByRoom]
    split
    · exact List.Perm.refl _
    · exact ((ih.cons y).trans (List.Perm.swap x y ys))

theorem sortByRoom_perm (l : List RoomCharge) : List.Perm (sortByRoom l) l := by
  induction l with
  | nil => exact List.Perm.refl _
  | cons x xs ih =>
    have h : sortByRoom (x :: xs) = insertByRoom x (sortByRoom xs) := rfl
    rw [h]
    exact (insertByRoom_perm x _).trans (ih.cons x)

theorem mem_sortByRoom {rc : RoomCharge} {l : List RoomCharge} :
    rc ∈ sortByRoom l ↔ rc ∈ l :=
  (sortByRoom_perm l).mem_iff

theorem sortByRoom_map_sum (f : RoomCharge → ℚ) (l : List RoomCharge) :
    ((sortByRoom l).map f).sum = (l.map f).sum :=
  ((sortByRoom_perm l).map f).sum_eq

/-! ## Monotonicity of the progressive tariff loop -/

theorem progressive_loop_ge :
    ∀ (tiers : List (Option ℚ × ℚ)) (prev : ℚ), tiersValid prev tiers →
      ∀ remaining fee, fee ≤ progressive_loop tiers remaining prev fee := by
  intro tiers
  induction tiers with
  | nil => intro prev _ remaining fee; simp [progressive_loop]
  | cons hd tl ih =>
    obtain ⟨limit, rate⟩ := hd
    intro prev hv remaining fee
    cases limit with
    | some l =>
      obtain ⟨hrate, hpl, hrest⟩ := hv
      simp only [progressive_loop]
      split
      · exact le_refl _
      · rename_i hr
        have hr' : 0 < remaining := lt_of_not_le hr
        have htier : 0 ≤ min remaining (l - prev) :=
          le_min (le_of_lt hr') (by linarith)
        have h1 : fee ≤ fee + min remaining (l - prev) * rate := by
          nlinarith
        exact le_trans h1 (ih l hrest _ _)
    | none =>
      obtain ⟨hrate, hrest⟩ := hv
      simp only [progressive_loop]
      split
      · exact le_refl _
      · rename_i hr
        have hr' : 0 < remaining := lt_of_not_le hr
        have h1 : fee ≤ fee + remaining * rate := by nlinarith
        exact le_trans h1 (ih prev hrest _ _)

theorem sub_min_mono {r1 r2 c : ℚ} (h : r1 ≤ r2) :
    r1 - min r1 c ≤ r2 - min r2 c := by
  rcases le_total r1 c with h1 | h1 <;> rcases le_total r2 c with h2 | h2 <;>
    simp [min_eq_left, min_eq_right, h1, h2] <;> linarith

theorem progressive_loop_mono :
    ∀ (tiers : List (Option ℚ × ℚ)) (prev : ℚ), tiersValid prev tiers →
      ∀ r1 r2 f1 f2, r1 ≤ r2 → f1 ≤ f2 →
        progressive_loop tiers r1 prev f1 ≤ progressive_loop tiers r2 prev f2 := by
  intro tiers
  induction tiers with
  | nil => intro prev _ r1 r2 f1 f2 _ hf; simpa [progressive_loop] using hf
  | cons hd tl ih =>
    obtain ⟨limit, rate⟩ := hd
    intro prev hv r1 r2 f1 f2 hr hf
    cases limit with
    | some l =>
      obtain ⟨hrate, hpl, hrest⟩ := hv
      simp only [progressive_loop]
      split
      · split
        · exact hf
        · rename_i h1 h2
          have h2' : 0 < r2 := lt_of_not_le h2
          have htier : 0 ≤ min r2 (l - prev) := le_min (le_of_lt h2') (by linarith)
          have hstep : f1 ≤ f2 + min r2 (l - prev) * rate := by nlinarith
          exact le_trans hstep (progressive_loop_ge tl l hrest _ _)
      · rename_i h1
        have h2 : ¬ r2 ≤ 0 := fun h => h1 (le_trans hr h)
        rw [if_neg h2]
        have htsub : r1 - min r1 (l - prev) ≤ r2 - min r2 (l - prev) :=
          sub_min_mono hr
        have htier : min r1 (l - prev) ≤ min r2 (l - prev) := min_le_min hr (le_refl _)
        have hfee : f1 + min r1 (l - prev) * rate ≤ f2 + min r2 (l - prev) * rate := by
          nlinarith
        exact ih l hrest _ _ _ _ htsub hfee
    | none =>
      obtain ⟨hrate, hrest⟩ := hv
      simp only [progressive_loop]
      split
      · split
        · exact hf
        · rename_i h1 h2
          have h2' : 0 < r2 := lt_of_not_le h2
          have hstep : f1 ≤ f2 + r2 * rate := by nlinarith
          exact le_trans hstep (progressive_loop_ge tl prev hrest _ _)
      · rename_i h1
        have h2 : ¬ r2 ≤ 0 := fun h => h1 (le_trans hr h)
        rw [if_neg h2]
        have hfee : f1 + r1 * rate ≤ f2 + r2 * rate := by nlinarith
        exact ih prev hrest _ _ _ _ (by linarith) hfee

theorem tiersValid_summer : tiersValid 0 TIER_SUMMER := by
  norm_num [tiersValid, TIER_SUMMER]

theorem tiersValid_non_summer : tiersValid 0 TIER_NON_SUMMER := by
  norm_num [tiersValid, TIER_NON_SUMMER]

/-! ## Unfolding lemmas for the allocation engine -/

theorem calculate_all_rooms_nonpos (c : ElectricityCalculator) (amount kwh : ℚ)
    (readings : List (String × ℚ)) (h : kwh ≤ 0) :
    calculate_all_rooms c amount kwh readings = Except.error "總度數必須大於 0" := by
  simp [calculate_all_rooms, calculate_unit_price, h]

theorem calculate_all_rooms_pos (c : ElectricityCalculator) (amount kwh : ℚ)
    (readings : List (String × ℚ)) (h : ¬ kwh ≤ 0) :
    calculate_all_rooms c amount kwh readings =
      Except.ok
        ({ unit_price := round2 (amount / kwh)
           public_kwh := (calculate_public_electricity kwh readings).1
           shared_kwh_per_room := calculate_shared_electricity
             (calculate_public_electricity kwh readings).1
             ((readings.map Prod.fst).filter (fun x => c.sharing_rooms.contains x)).length
           sharing_room_count :=
             ((readings.map Prod.fst).filter (fun x => c.sharing_rooms.contains x)).length
           room_charges := sortByRoom (readings.map (fun p =>
             calculate_room_charge c p.1 p.2 (round2 (amount / kwh))
               (calculate_shared_electricity (calculate_public_electricity kwh readings).1
                 ((readings.map Prod.fst).filter (fun x => c.sharing_rooms.contains x)).length)))
           total_charge := ((readings.map (fun p =>
             calculate_room_charge c p.1 p.2 (round2 (amount / kwh))
               (calculate_shared_electricity (calculate_public_electricity kwh readings).1
                 ((readings.map Prod.fst).filter
                   (fun x => c.sharing_rooms.contains x)).length))).map RoomCharge.charge).sum
           taipower_amount := amount
           difference := round2 (((((readings.map (fun p =>
             calculate_room_charge c p.1 p.2 (round2 (amount / kwh))
               (calculate_shared_electricity (calculate_public_electricity kwh readings).1
                 ((readings.map Prod.fst).filter
                   (fun x => c.sharing_rooms.contains x)).length))).map
                     RoomCharge.charge).sum : ℤ) : ℚ) - amount) },
         (calculate_public_electricity kwh readings).2) := by
  simp [calculate_all_rooms, calculate_unit_price, h]

theorem calculate_all_rooms_ok_kwh_pos {c : ElectricityCalculator} {amount kwh : ℚ}
    {readings : List (String × ℚ)} {out : AllocationResult × List LogEvent}
    (hok : calculate_all_rooms c amount kwh readings = Except.ok out) :
    ¬ kwh ≤ 0 := by
  intro h
  rw [calculate_all_rooms_nonpos c amount kwh readings h] at hok
  exact Except.noConfusion hok

theorem shared_exists_int (p : ℚ) (n : ℕ) :
    ∃ m : ℤ, calculate_shared_electricity p n = (m : ℚ) / 100 := by
  unfold calculate_shared_electricity
  split
  · exact ⟨0, by norm_num⟩
  · exact round2_exists_int _

theorem round2_shared (p : ℚ) (n : ℕ) :
    round2 (calculate_shared_electricity p n) = calculate_shared_electricity p n := by
  obtain ⟨m, hm⟩ := shared_exists_int p n
  rw [hm, round2_of_int_div]

theorem room_charges_total_sum (c : ElectricityCalculator) (unit_price share : ℚ)
    (hsh : ∃ m : ℤ, share = (m : ℚ) / 100) :
    ∀ l : List (String × ℚ), (∀ p ∈ l, ∃ n : ℤ, p.2 = (n : ℚ) / 100) →
      ((l.map (fun p => calculate_room_charge c p.1 p.2 unit_price share)).map
          RoomCharge.total_kwh).sum =
        (l.map Prod.snd).sum +
          (((l.map Prod.fst).filter (fun room => c.sharing_rooms.contains room)).length : ℚ)
            * share := by
  obtain ⟨m, hm⟩ := hsh
  intro l
  induction l with
  | nil => intro _; simp
  | cons p ps ih =>
    intro hdec
    obtain ⟨n, hn⟩ := hdec p (List.mem_cons_self p ps)
    have ihs := ih (fun q hq => hdec q (List.mem_cons_of_mem p hq))
    cases hcc : c.sharing_rooms.contains p.1 with
    | true =>
      have htot : (calculate_room_charge c p.1 p.2 unit_price share).total_kwh
          = p.2 + share := by
        simp only [calculate_room_charge, hcc, if_true]
        rw [hn, hm]
        have hcast : (n : ℚ) / 100 + (m : ℚ) / 100 = ((n + m : ℤ) : ℚ) / 100 := by
          push_cast; ring
        rw [hcast, round2_of_int_div]
      simp only [List.map_cons, List.sum_cons]
      rw [htot, ihs, List.filter_cons_of_pos hcc, List.length_cons]
      push_cast
      ring
    | false =>
      have htot : (calculate_room_charge c p.1 p.2 unit_price share).total_kwh = p.2 := by
        simp only [calculate_room_charge, hcc, if_false]
        rw [hn]
        simpa using round2_of_int_div n
      have hcc' : ¬ ((fun room => c.sharing_rooms.contains room) p.1 = true) := by
        intro h
        change c.sharing_rooms.contains p.1 = true at h
        rw [hcc] at h
        exact Bool.false_ne_true h
      simp only [List.map_cons, List.sum_cons]
      rw [htot, ihs, List.filter_cons_of_neg hcc']
      ring

/-! ## Claim theorems -/

/-- C1: for bill amount 10000 and bill consumption 1000 with readings
`{A: 100 (exclusive), B: 200 (sharing), C: 300 (sharing)}`, the engine
produces blended unit price 10.00, common consumption 400, sharing-unit
count 2, per-unit share 200.00, per-unit totals A=100, B=400, C=500,
per-unit charges A=1000, B=4000, C=5000, total charged 10000 and
difference 0. -/
theorem c1_end_to_end_scenario :
    calculate_all_rooms calcABC 10000 1000 [("A", 100), ("B", 200), ("C", 300)] =
      Except.ok
        ({ unit_price := 10
           public_kwh := 400
           shared_kwh_per_room := 200
           sharing_room_count := 2
           room_charges :=
             [{ room := "A", room_kwh := 100, shared_kwh := 0, total_kwh := 100,
                charge := 1000, is_sharing := false },
              { room := "B", room_kwh := 200, shared_kwh := 200, total_kwh := 400,
                charge := 4000, is_sharing := true },
              { room := "C", room_kwh := 300, shared_kwh := 200, total_kwh := 500,
                charge := 5000, is_sharing := true }]
           total_charge := 10000
           taipower_amount := 10000
           difference := 0 }, []) := by
  norm_num [calculate_all_rooms, calculate_unit_price, calculate_public_electricity,
    calculate_shared_electricity, calculate_room_charge, calcABC, sortByRoom, insertByRoom,
    round2, pyRound, List.contains]
  norm_num +decide

/-- C3 counterexample: called with an empty reading map (and positive
aggregate consumption) the engine does not raise any error — it returns a
normal result with an empty charge list, total 0 and difference −10000. -/
theorem c3_counterexample :
    calculate_all_rooms calcABC 10000 1000 [] =
      Except.ok
        ({ unit_price := 10, public_kwh := 1000, shared_kwh_per_room := 0,
           sharing_room_count := 0, room_charges := [], total_charge := 0,
           taipower_amount := 10000, difference := -10000 }, []) := by
  norm_num [calculate_all_rooms, calculate_unit_price, calculate_public_electricity,
    calculate_shared_electricity, sortByRoom, round2, pyRound]

/-- C3 (amended): calling the engine with an empty reading map does not
raise; for any positive aggregate consumption it returns a normal result
with no per-room charges, total charge 0 and difference `round2 (-amount)`
(only a non-positive aggregate consumption raises). -/
theorem c3_empty_reading_map_returns_ok (c : ElectricityCalculator)
    (amount kwh : ℚ) (h : 0 < kwh) :
    calculate_all_rooms c amount kwh [] =
      Except.ok
        ({ unit_price := round2 (amount / kwh), public_kwh := round2 kwh,
           shared_kwh_per_room := 0, sharing_room_count := 0, room_charges := [],
           total_charge := 0, taipower_amount := amount,
           difference := round2 (-amount) }, []) := by
  have h' : ¬ kwh ≤ 0 := not_le.mpr h
  have h2 : ¬ kwh - (([] : List (String × ℚ)).map Prod.snd).sum < 0 := by
    simp
    linarith
  simp [calculate_all_rooms, calculate_unit_price, h', calculate_public_electricity,
    calculate_shared_electricity, h2, sortByRoom, not_lt.mpr (le_of_lt h)]

/-- C3 witness: the amended theorem applied at `calcABC`, amount 500,
consumption 5 and the empty map. -/
theorem c3_witness :
    calculate_all_rooms calcABC 500 5 [] =
      Except.ok
        ({ unit_price := round2 (500 / 5), public_kwh := round2 5,
           shared_kwh_per_room := 0, sharing_room_count := 0, room_charges := [],
           total_charge := 0, taipower_amount := 500,
           difference := round2 (-500) }, []) :=
  c3_empty_reading_map_returns_ok calcABC 500 5 (by norm_num)

/-- C4: the engine fails (with the `ValueError`, whose message plays the
role of the `DivisionByZero`-class error) exactly when the aggregate
consumption is non-positive — the guard precedes the division in the
source, so the division is never executed with a zero divisor — and on
success the blended unit price is `round2 (amount / consumption)`. -/
theorem c4_zero_division_guard (c : ElectricityCalculator) (amount kwh : ℚ)
    (readings : List (String × ℚ)) :
    (calculate_all_rooms c amount kwh readings = Except.error "總度數必須大於 0" ↔
      kwh ≤ 0) ∧
    ∀ r logs, calculate_all_rooms c amount kwh readings = Except.ok (r, logs) →
      r.unit_price = round2 (amount / kwh) := by
  constructor
  · constructor
    · intro herr
      by_contra h
      rw [calculate_all_rooms_pos c amount kwh readings h] at herr
      exact Except.noConfusion herr
    · intro h
      exact calculate_all_rooms_nonpos c amount kwh readings h
  · intro r logs hok
    have h := calculate_all_rooms_ok_kwh_pos hok
    rw [calculate_all_rooms_pos c amount kwh readings h] at hok
    simp only [Except.ok.injEq, Prod.mk.injEq] at hok
    obtain ⟨h1, -⟩ := hok
    subst h1
    rfl

/-- C4 witness: the theorem applied at concrete inputs: consumption 0
raises the error, and for the empty-map allocation at amount 10000 and
consumption 1000 the unit price equals `round2 (10000 / 1000)`. -/
theorem c4_witness :
    calculate_all_rooms calcABC 1000 0 [] = Except.error "總度數必須大於 0" ∧
    ({ unit_price := 10, public_kwh := 1000, shared_kwh_per_room := 0,
       sharing_room_count := 0, room_charges := [], total_charge := 0,
       taipower_amount := 10000, difference := -10000 } :
         AllocationResult).unit_price = round2 (10000 / 1000) := by
  constructor
  · exact (c4_zero_division_guard calcABC 1000 0 []).1.mpr (by norm_num)
  · exact (c4_zero_division_guard calcABC 10000 1000 []).2 _ []
      (by norm_num [calculate_all_rooms, calculate_unit_price,
        calculate_public_electricity, calculate_shared_electricity, sortByRoom,
        round2, pyRound])

/-- C5 counterexample: with blended price 3.33 and two sharing units with
totals 150.33 and 149.67, the engine's per-unit charges are 501 and 498
(`round(150.33 * 3.33) = round(500.5989) = 501` and
`round(149.67 * 3.33) = round(498.4011) = 498`), not the claimed 500 and
499. -/
theorem c5_counterexample :
    calculate_all_rooms calcABC 1000 300 [("B", 15033/100), ("C", 14967/100)] =
      Except.ok
        ({ unit_price := 333/100
           public_kwh := 0
           shared_kwh_per_room := 0
           sharing_room_count := 2
           room_charges :=
             [{ room := "B", room_kwh := 15033/100, shared_kwh := 0,
                total_kwh := 15033/100, charge := 501, is_sharing := true },
              { room := "C", room_kwh := 14967/100, shared_kwh := 0,
                total_kwh := 14967/100, charge := 498, is_sharing := true }]
           total_charge := 999
           taipower_amount := 1000
           difference := -1 }, []) ∧
    ([(501 : ℤ), 498] : List ℤ) ≠ [500, 499] := by
  constructor
  · norm_num [calculate_all_rooms, calculate_unit_price, calculate_public_electricity,
      calculate_shared_electricity, calculate_room_charge, calcABC, sortByRoom,
      insertByRoom, round2, pyRound, Int.fract, List.contains]
    norm_num +decide
  · decide

/-- C5 (amended): with blended unit price 3.33 (from bill amount 1000 and
consumption 300) and two sharing units whose per-unit total consumptions
are 150.33 and 149.67, the per-unit charges (each rounded to the nearest
whole currency unit) are 501 and 498 respectively, their sum is 999, and
the reported difference is −1. -/
theorem c5_rounding_difference_scenario :
    calculate_all_rooms calcABC 1000 300 [("B", 15033/100), ("C", 14967/100)] =
      Except.ok
        ({ unit_price := 333/100
           public_kwh := 0
           shared_kwh_per_room := 0
           sharing_room_count := 2
           room_charges :=
             [{ room := "B", room_kwh := 15033/100, shared_kwh := 0,
                total_kwh := 15033/100, charge := 501, is_sharing := true },
              { room := "C", room_kwh := 14967/100, shared_kwh := 0,
                total_kwh := 14967/100, charge := 498, is_sharing := true }]
           total_charge := 999
           taipower_amount := 1000
           difference := -1 }, []) := by
  norm_num [calculate_all_rooms, calculate_unit_price, calculate_public_electricity,
    calculate_shared_electricity, calculate_room_charge, calcABC, sortByRoom,
    insertByRoom, round2, pyRound, Int.fract, List.contains]
  norm_num +decide

/-- C2 counterexample: on the unclamped input `amount 400, consumption
200, readings {B: 100}` (one sharing room) the sum of the per-unit total
consumptions is 200, while aggregate consumption minus the (unclamped)
common consumption is `200 − 100 = 100`: the claimed conservation
equality fails. -/
theorem c2_counterexample :
    calculate_all_rooms calcBonly 400 200 [("B", 100)] = Except.ok (C2R, []) ∧
    (C2R.room_charges.map RoomCharge.total_kwh).sum ≠ 200 - C2R.public_kwh := by
  constructor
  · norm_num [calculate_all_rooms, calculate_unit_price, calculate_public_electricity,
      calculate_shared_electricity, calculate_room_charge, calcBonly, C2R, sortByRoom,
      insertByRoom, round2, pyRound, Int.fract, List.contains]
  · norm_num [C2R]

/-- C2 (amended): for every input whose per-unit readings all have at
most 2 decimal places and in which common consumption was not clamped,
the sum over all units of the per-unit total consumption equals the sum
of the per-unit readings plus the sharing-unit count times the per-unit
shared consumption, exactly (the common consumption is re-added to the
sharing units, so the sum is not `aggregate − common`). -/
theorem c2_conservation_amended (c : ElectricityCalculator) (amount kwh : ℚ)
    (readings : List (String × ℚ)) (r : AllocationResult) (logs : List LogEvent)
    (hdec : ∀ p ∈ readings, ∃ n : ℤ, p.2 = (n : ℚ) / 100)
    (hnoclamp : 0 ≤ kwh - (readings.map Prod.snd).sum)
    (hok : calculate_all_rooms c amount kwh readings = Except.ok (r, logs)) :
    (r.room_charges.map RoomCharge.total_kwh).sum =
      (readings.map Prod.snd).sum +
        (r.sharing_room_count : ℚ) * r.shared_kwh_per_room := by
  have h := calculate_all_rooms_ok_kwh_pos hok
  rw [calculate_all_rooms_pos c amount kwh readings h] at hok
  simp only [Except.ok.injEq, Prod.mk.injEq] at hok
  obtain ⟨h1, -⟩ := hok
  subst h1
  simp only [sortByRoom_map_sum]
  rw [room_charges_total_sum c (round2 (amount / kwh)) _
    (shared_exists_int _ _) readings hdec]

/-- C2 witness: the amended theorem applied to `calcBonly`, amount 400,
consumption 200, the single sharing reading `{B: 100}`. -/
theorem c2_witness :
    (C2R.room_charges.map RoomCharge.total_kwh).sum =
      (([("B", (100 : ℚ))].map Prod.snd).sum) +
        (C2R.sharing_room_count : ℚ) * C2R.shared_kwh_per_room :=
  c2_conservation_amended calcBonly 400 200 [("B", 100)] C2R []
    (by
      intro p hp
      simp only [List.mem_singleton] at hp
      subst hp
      exact ⟨10000, by norm_num⟩)
    (by norm_num)
    (by norm_num [calculate_all_rooms, calculate_unit_price,
      calculate_public_electricity, calculate_shared_electricity,
      calculate_room_charge, calcBonly, C2R, sortByRoom, insertByRoom, round2,
      pyRound, Int.fract, List.contains])

/-- C6: in every successful allocation, each unit in `sharing_rooms`
receives exactly the per-unit share (common consumption divided by the
sharing-unit count, rounded to 2 decimals, when the count is positive;
0 when it is zero), and each unit not in `sharing_rooms` — in particular
each exclusive unit, the configuration keeping the two lists disjoint —
receives shared consumption 0 regardless of the common-consumption
magnitude and of the sharing-unit count. -/
theorem c6_shared_assignment (c : ElectricityCalculator) (amount kwh : ℚ)
    (readings : List (String × ℚ)) (r : AllocationResult) (logs : List LogEvent)
    (hok : calculate_all_rooms c amount kwh readings = Except.ok (r, logs)) :
    (∀ rc ∈ r.room_charges,
      (c.sharing_rooms.contains rc.room = true →
        rc.shared_kwh = r.shared_kwh_per_room) ∧
      (c.sharing_rooms.contains rc.room = false → rc.shared_kwh = 0)) ∧
    (r.sharing_room_count ≠ 0 →
      r.shared_kwh_per_room = round2 (r.public_kwh / r.sharing_room_count)) ∧
    (r.sharing_room_count = 0 → r.shared_kwh_per_room = 0) := by
  have h := calculate_all_rooms_ok_kwh_pos hok
  rw [calculate_all_rooms_pos c amount kwh readings h] at hok
  simp only [Except.ok.injEq, Prod.mk.injEq] at hok
  obtain ⟨h1, -⟩ := hok
  subst h1
  refine ⟨?_, ?_, ?_⟩
  · intro rc hrc
    simp only [mem_sortByRoom, List.mem_map] at hrc
    obtain ⟨p, hp, hfp⟩ := hrc
    subst hfp
    constructor
    · intro hcs
      simp only [calculate_room_charge] at hcs ⊢
      simp only [hcs, if_true]
      exact round2_shared _ _
    · intro hcs
      simp only [calculate_room_charge] at hcs ⊢
      simp only [hcs, if_false]
      exact round2_zero
  · intro hcount
    simp only [calculate_shared_electricity] at hcount ⊢
    rw [if_neg]
    intro hzero
    simp only [hzero, if_true] at hcount
    exact hcount rfl
  · intro hcount
    simp only [calculate_shared_electricity] at hcount ⊢
    rw [if_pos hcount]

/-- C6 witness: the theorem applied to the allocation
`calculate_all_rooms calcBonly 400 200 [("B", 100)]`: the charge entry of
the sharing room `B` carries exactly the per-unit share. -/
theorem c6_witness :
    ({ room := "B", room_kwh := 100, shared_kwh := 100, total_kwh := 200,
       charge := 400, is_sharing := true } : RoomCharge).shared_kwh =
      C2R.shared_kwh_per_room := by
  have h := c6_shared_assignment calcBonly 400 200 [("B", 100)] C2R []
    (by norm_num [calculate_all_rooms, calculate_unit_price,
      calculate_public_electricity, calculate_shared_electricity,
      calculate_room_charge, calcBonly, C2R, sortByRoom, insertByRoom, round2,
      pyRound, List.contains])
  exact (h.1 _ (by norm_num [C2R])).1 (by norm_num [calcBonly, List.contains])

/-- C7: when the aggregate consumption minus the sum of the per-unit
readings is negative, the engine clamps the common consumption to zero,
emits exactly the negative-public-consumption warning on its log channel
(surfaced to the caller in this model as the returned log list), and the
computation proceeds to a normal (`Except.ok`) result. -/
theorem c7_negative_common_clamped (c : ElectricityCalculator) (amount kwh : ℚ)
    (readings : List (String × ℚ)) (hk : 0 < kwh)
    (hneg : kwh - (readings.map Prod.snd).sum < 0) :
    (calculate_all_rooms c amount kwh readings).isOk = true ∧
    ∀ r logs, calculate_all_rooms c amount kwh readings = Except.ok (r, logs) →
      r.public_kwh = 0 ∧
      logs = [LogEvent.negativePublicKwh (kwh - (readings.map Prod.snd).sum) kwh
        ((readings.map Prod.snd).sum)] := by
  have h' : ¬ kwh ≤ 0 := not_le.mpr hk
  rw [calculate_all_rooms_pos c amount kwh readings h']
  refine ⟨rfl, ?_⟩
  intro r logs hok
  simp only [Except.ok.injEq, Prod.mk.injEq] at hok
  obtain ⟨h1, h2⟩ := hok
  constructor
  · rw [← h1]
    show (calculate_public_electricity kwh readings).1 = 0
    simp [calculate_public_electricity, hneg]
  · rw [← h2]
    show (calculate_public_electricity kwh readings).2 = _
    simp [calculate_public_electricity, hneg]

/-- C7 witness: the theorem applied at `calcBonly`, amount 500,
consumption 100 and the single reading `{B: 150}` (sub-meter total 150
exceeds the aggregate 100). -/
theorem c7_witness :
    (0 : ℚ) < 100 ∧
    (calculate_all_rooms calcBonly 500 100 [("B", 150)]).isOk = true :=
  ⟨by norm_num,
   (c7_negative_common_clamped calcBonly 500 100 [("B", 150)] (by norm_num)
     (by norm_num)).1⟩

/-- C8: `validate_readings` passes exactly when its issue list is empty;
every unit with a negative current reading contributes a negative-reading
issue, every unit present in both maps whose current reading is below the
previous one contributes a regression issue, and on
`{A: 50}` against previous `{A: 80}` it returns `ok = false` with exactly
one issue, mentioning unit `A`.  The function is pure: it is modelled as
(and the source is) a function of its two arguments only. -/
theorem c8_validate_readings (current : List (String × ℚ))
    (previous : Option (List (String × ℚ))) :
    ((validate_readings current previous).1 = true ↔
      (validate_readings current previous).2 = []) ∧
    (∀ p ∈ current, p.2 < 0 →
      ValidationIssue.negativeReading p.1 p.2 ∈
        (validate_readings current previous).2) ∧
    (∀ p ∈ current, ∀ prev, previous = some prev →
      ∀ q, prev.lookup p.1 = some q → p.2 < q →
      ValidationIssue.regression p.1 p.2 q ∈
        (validate_readings current previous).2) ∧
    validate_readings [("A", 50)] (some [("A", 80)]) =
      (false, [ValidationIssue.regression "A" 50 80]) := by
  refine ⟨?_, ?_, ?_, ?_⟩
  · simp [validate_readings, List.isEmpty_iff]
  · intro p hp hneg
    simp only [validate_readings]
    apply List.mem_append_left
    exact List.mem_filterMap.mpr ⟨p, hp, by simp [hneg]⟩
  · intro p hp prev hprev q hq hlt
    subst hprev
    simp only [validate_readings]
    apply List.mem_append_right
    have hne : prev.isEmpty = false := by
      cases prev with
      | nil => simp at hq
      | cons a l => rfl
    rw [if_neg (by simp [hne])]
    exact List.mem_filterMap.mpr ⟨p, hp, by rw [hq]; simp [hlt]⟩
  · norm_num [validate_readings, List.lookup, List.filterMap_cons, List.filterMap_nil]

/-- C8 witness: the negative-reading clause of the theorem applied to the
map `{Z: −1}` with no previous map. -/
theorem c8_witness :
    ValidationIssue.negativeReading "Z" (-1) ∈
      (validate_readings [("Z", (-1 : ℚ))] none).2 :=
  (c8_validate_readings [("Z", (-1 : ℚ))] none).2.1 ("Z", -1) (by simp)
    (by norm_num)

/-- C9: for a fixed season flag the progressive tariff fee is
non-decreasing in the consumption over non-negative consumptions, and at
consumption 0 it is 0, without error. -/
theorem c9_tier_monotonicity (is_summer : Bool) (k1 k2 : ℚ) (h0 : 0 ≤ k1)
    (h12 : k1 ≤ k2) :
    calculate_progressive_fee k1 is_summer ≤ calculate_progressive_fee k2 is_summer ∧
    calculate_progressive_fee 0 is_summer = 0 := by
  constructor
  · cases is_summer with
    | true =>
      exact round2_mono
        (progressive_loop_mono TIER_SUMMER 0 tiersValid_summer k1 k2 0 0 h12 le_rfl)
    | false =>
      exact round2_mono
        (progressive_loop_mono TIER_NON_SUMMER 0 tiersValid_non_summer k1 k2 0 0 h12
          le_rfl)
  · cases is_summer with
    | true =>
      norm_num [calculate_progressive_fee, TIER_SUMMER, progressive_loop, round2,
        pyRound]
    | false =>
      norm_num [calculate_progressive_fee, TIER_NON_SUMMER, progressive_loop, round2,
        pyRound]

/-- C9 witness: the theorem applied at the summer table with
consumptions 100 and 200. -/
theorem c9_witness :
    calculate_progressive_fee 100 true ≤ calculate_progressive_fee 200 true ∧
    calculate_progressive_fee 0 true = 0 :=
  c9_tier_monotonicity true 100 200 (by norm_num) (by norm_num)

/-- C10: for every non-positive consumption (including strictly negative
values) and either season flag the progressive fee is 0 and no error is
raised: the bracket loop exits at its first iteration because the
remaining amount is non-positive. -/
theorem c10_nonpositive_consumption_zero_fee (kwh : ℚ) (h : kwh ≤ 0)
    (is_summer : Bool) :
    calculate_progressive_fee kwh is_summer = 0 := by
  cases is_summer with
  | true =>
    show round2 (progressive_loop TIER_SUMMER kwh 0 0) = 0
    simp only [TIER_SUMMER, progressive_loop, if_pos h]
    exact round2_zero
  | false =>
    show round2 (progressive_loop TIER_NON_SUMMER kwh 0 0) = 0
    simp only [TIER_NON_SUMMER, progressive_loop, if_pos h]
    exact round2_zero

/-- C10 witness: the theorem applied at consumption −5 in summer. -/
theorem c10_witness : calculate_progressive_fee (-5) true = 0 :=
  c10_nonpositive_consumption_zero_fee (-5) (by norm_num) true
